import Mathlib

/-!
Verification of the Village Life Simulation System core against its
natural-language specification.  The Python source is embedded shallowly:
pure computations over decimal constants become functions over `ℚ`,
the transcendental parts (`math.exp`, `math.log`) become `Real.exp` /
`Real.log`, mutable per-agent dictionaries become explicit state records,
and every use of the random number generator becomes an explicit draw
parameter.
-/

namespace Village

/-- Activity types, from `ActivityType` in
`core/village_meaning_pressure_system.py`. -/
inductive ActivityType where
  | HUNTING
  | CAREGIVING
  | COOKING
  | SOCIAL_COORDINATION
  | CARPENTRY
deriving DecidableEq, Repr

/-- The four meaning levels, from `MeaningLevel` in
`core/village_meaning_pressure_system.py`. -/
inductive MeaningLevel where
  | TRIVIAL
  | ROUTINE
  | MEANINGFUL
  | PROFOUND
deriving DecidableEq, Repr

open ActivityType MeaningLevel

/-- The meaning-pressure context dictionary.  Each field carries the
default that the Python code substitutes via `context.get(key, default)`,
so a "missing key" is represented by the default value. -/
structure Ctx where
  success : Bool := false
  effectiveness : ℚ := 1/2
  difficulty : ℚ := 1/2
  emergency : Bool := false
  innovation : Bool := false
  large_prey : Bool := false
  danger_level : ℚ := 0
  life_threatening : Bool := false
  patient_recovery : Bool := false
  feast_preparation : Bool := false
  new_recipe : Bool := false
  food_crisis : Bool := false
  complex_project : Bool := false
  new_technique : Bool := false
  emergency_construction : Bool := false
  project_quality : ℚ := 1/2
  collaboration : Bool := false
  time_pressure : Bool := false
  resource_scarcity : Bool := false
  weather_bad : Bool := false
  group_coordination : Bool := false
  multiple_patients : Bool := false
  diagnosis_difficulty : Bool := false
  limited_ingredients : Bool := false
  large_group : Bool := false
  limited_materials : Bool := false
  structural_requirements : Bool := false
  team_coordination : Bool := false
  people_affected : ℕ := 1
  village_wide_impact : Bool := false
  mentor_present : Bool := false
  high_stakes : Bool := false
deriving DecidableEq, Repr

/-- `_assess_meaning_level`: classify the experience into one of the four
meaning levels, with the activity-specific rule chains of the source. -/
def assess_meaning_level (activity : ActivityType) (c : Ctx) : MeaningLevel :=
  match activity with
  | HUNTING =>
      if c.emergency && c.success then PROFOUND
      else if c.large_prey && c.success && decide (c.danger_level > 7/10) then MEANINGFUL
      else if c.success && decide (c.effectiveness > 6/10) then ROUTINE
      else TRIVIAL
  | CAREGIVING =>
      if c.life_threatening && c.success && c.patient_recovery then PROFOUND
      else if c.success && decide (c.effectiveness > 7/10) then MEANINGFUL
      else if c.success then ROUTINE
      else TRIVIAL
  | COOKING =>
      if (c.feast_preparation || c.food_crisis) && c.success then PROFOUND
      else if c.new_recipe && c.success then MEANINGFUL
      else if c.success && decide (c.effectiveness > 6/10) then ROUTINE
      else TRIVIAL
  | CARPENTRY =>
      if (c.complex_project || c.emergency_construction) && c.success
          && decide (c.project_quality > 8/10) then PROFOUND
      else if c.new_technique && c.success then MEANINGFUL
      else if c.success && decide (c.project_quality > 6/10) then ROUTINE
      else TRIVIAL
  | SOCIAL_COORDINATION =>
      if c.innovation && c.success then PROFOUND
      else if c.success && decide (c.effectiveness > 7/10) && decide (c.difficulty > 6/10) then
        MEANINGFUL
      else if c.success then ROUTINE
      else TRIVIAL

/-- The base-pressure constant attached to each meaning level in
`calculate_meaning_pressure`. -/
def base_pressure : MeaningLevel → ℚ
  | TRIVIAL => 2/10
  | ROUTINE => 5/10
  | MEANINGFUL => 1
  | PROFOUND => 2

/-- `_assess_activity_complexity`: additive context bonuses starting from
1.0, clamped at 2.5. -/
def assess_activity_complexity (activity : ActivityType) (c : Ctx) : ℚ :=
  let common : ℚ := 1
    + (if c.collaboration then 3/10 else 0)
    + (if c.time_pressure then 2/10 else 0)
    + (if c.resource_scarcity then 4/10 else 0)
  let specific : ℚ :=
    match activity with
    | HUNTING =>
        (if c.weather_bad then 3/10 else 0) + (if c.group_coordination then 4/10 else 0)
    | CAREGIVING =>
        (if c.multiple_patients then 5/10 else 0) + (if c.diagnosis_difficulty then 6/10 else 0)
    | COOKING =>
        (if c.limited_ingredients then 4/10 else 0) + (if c.large_group then 3/10 else 0)
    | CARPENTRY =>
        (if c.limited_materials then 5/10 else 0) + (if c.structural_requirements then 6/10 else 0)
          + (if c.team_coordination then 4/10 else 0)
    | SOCIAL_COORDINATION => 0
  min (5/2) (common + specific)

/-- `_calculate_social_impact`: `1 * (1 + ln(people_affected) * 0.2)`,
times 1.5 on `emergency`, times 1.8 on `village_wide_impact`, capped at 3.
(`math.log` is `Real.log` here; the source is only called with
`people_affected ≥ 1`.) -/
noncomputable def calculate_social_impact (c : Ctx) : ℝ :=
  let impact : ℝ := 1 * (1 + Real.log (c.people_affected : ℝ) * (2/10))
  let impact := if c.emergency then impact * (15/10) else impact
  let impact := if c.village_wide_impact then impact * (18/10) else impact
  min 3 impact

/-- Activity-specific repetition decay rate from `_calculate_repetition_decay`. -/
def decay_rate : ActivityType → ℚ
  | HUNTING => 5/100
  | CAREGIVING => 3/100
  | COOKING => 4/100
  | CARPENTRY => 2/100
  | SOCIAL_COORDINATION => 8/100

/-- The repetition-decay factor `max(0.3, exp(-count * decay_rate))`
computed by `_calculate_repetition_decay` at a given pre-increment
repetition count. -/
noncomputable def repetition_decay_factor (activity : ActivityType) (count : ℕ) : ℝ :=
  max (3/10) (Real.exp (-((count : ℝ) * ((decay_rate activity : ℚ) : ℝ))))

/-- The value of `calculate_meaning_pressure` as a function of the
pre-increment repetition count (the only state the computation reads). -/
noncomputable def meaning_pressure_at (activity : ActivityType) (c : Ctx) (count : ℕ) : ℝ :=
  let bp : ℝ := ((base_pressure (assess_meaning_level activity c) : ℚ) : ℝ)
  let cx : ℝ := ((assess_activity_complexity activity c : ℚ) : ℝ)
  max (5/100) (bp * cx * repetition_decay_factor activity count * calculate_social_impact c)

/-- One entry of the experience history appended by
`_update_experience_history`. -/
structure Experience where
  context : Ctx
  alignment_work : ℝ
  meaning_pressure : ℝ

/-- The mutable state of `VillageMeaningPressureSystem`: the three
`defaultdict`s keyed by person and activity.  Missing keys read as the
`defaultdict` defaults (0, 0, []). -/
structure MPState where
  alignment_inertia : String → ActivityType → ℝ
  repetition_counter : String → ActivityType → ℕ
  experience_history : String → ActivityType → List Experience

/-- Fresh `VillageMeaningPressureSystem` state (all defaultdicts empty). -/
def MPState.init : MPState :=
  { alignment_inertia := fun _ _ => 0
    repetition_counter := fun _ _ => 0
    experience_history := fun _ _ => [] }

/-- Write one repetition-counter cell. -/
def MPState.setCounter (s : MPState) (p : String) (a : ActivityType) (n : ℕ) : MPState :=
  { s with repetition_counter := fun p' a' =>
      if p' = p ∧ a' = a then n else s.repetition_counter p' a' }

/-- Write one inertia cell. -/
def MPState.setInertia (s : MPState) (p : String) (a : ActivityType) (v : ℝ) : MPState :=
  { s with alignment_inertia := fun p' a' =>
      if p' = p ∧ a' = a then v else s.alignment_inertia p' a' }

/-- Write one experience-history cell. -/
def MPState.setHistory (s : MPState) (p : String) (a : ActivityType)
    (h : List Experience) : MPState :=
  { s with experience_history := fun p' a' =>
      if p' = p ∧ a' = a then h else s.experience_history p' a' }

/-- `calculate_meaning_pressure`: returns the pressure and the state after
the repetition counter has been incremented by its
`_calculate_repetition_decay` side effect. -/
noncomputable def calculate_meaning_pressure (s : MPState) (p : String)
    (a : ActivityType) (c : Ctx) : ℝ × MPState :=
  (meaning_pressure_at a c (s.repetition_counter p a),
   s.setCounter p a (s.repetition_counter p a + 1))

/-- `_get_learning_rate`: activity base rate with mentor / high-stakes
multipliers. -/
def get_learning_rate (a : ActivityType) (c : Ctx) : ℚ :=
  let base : ℚ :=
    match a with
    | HUNTING => 12/100
    | CAREGIVING => 15/100
    | COOKING => 18/100
    | SOCIAL_COORDINATION => 10/100
    | CARPENTRY => 14/100
  let r := if c.mentor_present then base * (13/10) else base
  if c.high_stakes then r * (12/10) else r

/-- Activity resistance coefficient ρ. -/
def activity_resistance : ActivityType → ℚ
  | HUNTING => 4/10
  | CAREGIVING => 2/10
  | COOKING => 3/10
  | SOCIAL_COORDINATION => 5/10
  | CARPENTRY => 6/10

/-- Activity base alignment coefficient G0. -/
def base_alignment : ActivityType → ℚ
  | HUNTING => 25/100
  | CAREGIVING => 30/100
  | COOKING => 35/100
  | SOCIAL_COORDINATION => 20/100
  | CARPENTRY => 40/100

/-- `_update_experience_history`: recomputes the meaning pressure (a second
counter increment), appends the record, and trims the list to its last 20
entries once it exceeds 30. -/
noncomputable def update_experience_history (s : MPState) (p : String)
    (a : ActivityType) (c : Ctx) (work : ℝ) : MPState :=
  let pr := calculate_meaning_pressure s p a c
  let e : Experience := { context := c, alignment_work := work, meaning_pressure := pr.1 }
  let h := s.experience_history p a ++ [e]
  let h := if h.length > 30 then h.drop (h.length - 20) else h
  (pr.2.setHistory p a h)

/-- `update_alignment_inertia_with_meaning_pressure`: the full inertia
update.  Returns the new inertia value and the updated system state. -/
noncomputable def update_alignment_inertia_with_meaning_pressure (s : MPState)
    (p : String) (a : ActivityType) (c : Ctx) (time_decay : ℝ := 98/100) :
    ℝ × MPState :=
  let current_inertia := s.alignment_inertia p a
  let mp := calculate_meaning_pressure s p a c
  let meaning_pressure := mp.1
  let s1 := mp.2
  let G0 : ℝ := ((base_alignment a : ℚ) : ℝ)
  let g : ℝ := 3/10
  let rho : ℝ := ((activity_resistance a : ℚ) : ℝ)
  let j := (G0 + g * current_inertia) * meaning_pressure
  let alignment_work := meaning_pressure * j - rho * (j ^ 2)
  let decayed_inertia := current_inertia * time_decay
  let learning_rate : ℝ := ((get_learning_rate a c : ℚ) : ℝ)
  let new_inertia :=
    if alignment_work > 0 then decayed_inertia + learning_rate * alignment_work
    else decayed_inertia + learning_rate * alignment_work * (2/10)
  let new_inertia := max (5/100) (min new_inertia 10)
  let s2 := s1.setInertia p a new_inertia
  (new_inertia, update_experience_history s2 p a c alignment_work)

/-- One recorded call to the inertia update: person, activity, context and
the `time_decay` argument. -/
structure UpdateCall where
  person : String
  activity : ActivityType
  context : Ctx
  time_decay : ℝ

/-- Apply a sequence of inertia-update calls in order, starting from a
given system state. -/
noncomputable def applyUpdates (calls : List UpdateCall) (s : MPState) : MPState :=
  match calls with
  | [] => s
  | c :: rest =>
      applyUpdates rest
        (update_alignment_inertia_with_meaning_pressure s c.person c.activity
          c.context c.time_decay).2

/-- The documented inertia range [0.05, 10.0]. -/
def InertiaInRange (v : ℝ) : Prop := 5/100 ≤ v ∧ v ≤ 10

lemma update_experience_history_inertia (s : MPState) (p : String) (a : ActivityType)
    (c : Ctx) (w : ℝ) :
    (update_experience_history s p a c w).alignment_inertia = s.alignment_inertia := rfl

lemma update_self_inertia_clamped (s : MPState) (p : String) (a : ActivityType)
    (c : Ctx) (td : ℝ) :
    InertiaInRange
      ((update_alignment_inertia_with_meaning_pressure s p a c td).2.alignment_inertia p a) := by
  unfold update_alignment_inertia_with_meaning_pressure
  simp only [update_experience_history_inertia, MPState.setInertia, calculate_meaning_pressure,
    MPState.setCounter]
  simp only [and_self, if_true, if_pos]
  refine ⟨le_max_left _ _, max_le (by norm_num) (min_le_right _ _)⟩

lemma update_other_inertia_preserved (s : MPState) (p p' : String) (a a' : ActivityType)
    (c : Ctx) (td : ℝ) (h : ¬(p' = p ∧ a' = a)) :
    (update_alignment_inertia_with_meaning_pressure s p a c td).2.alignment_inertia p' a'
      = s.alignment_inertia p' a' := by
  unfold update_alignment_inertia_with_meaning_pressure
  simp only [update_experience_history_inertia, MPState.setInertia, calculate_meaning_pressure,
    MPState.setCounter]
  simp only [h, if_false, if_neg, not_false_iff]

lemma applyUpdates_inRange (calls : List UpdateCall) (s : MPState) (p : String)
    (a : ActivityType)
    (h : (∃ c ∈ calls, c.person = p ∧ c.activity = a)
        ∨ InertiaInRange (s.alignment_inertia p a)) :
    InertiaInRange ((applyUpdates calls s).alignment_inertia p a) := by
  induction calls generalizing s with
  | nil =>
      rcases h with ⟨c, hc, _⟩ | h
      · exact absurd hc (List.not_mem_nil c)
      · exact h
  | cons c rest ih =>
      by_cases hc : c.person = p ∧ c.activity = a
      · refine ih _ (Or.inr ?_)
        rcases hc with ⟨hp, ha⟩
        rw [← hp, ← ha]
        exact update_self_inertia_clamped _ _ _ _ _
      · refine ih _ ?_
        rcases h with ⟨d, hd, hdpa⟩ | h
        · rcases List.mem_cons.mp hd with rfl | hd
          · exact absurd hdpa hc
          · exact Or.inl ⟨d, hd, hdpa⟩
        · refine Or.inr ?_
          have hne : ¬(p = c.person ∧ a = c.activity) := by
            intro ⟨h1, h2⟩; exact hc ⟨h1.symm, h2.symm⟩
          rw [update_other_inertia_preserved _ _ _ _ _ _ _ hne]
          exact h

/-- C1.  For every agent, activity, and sequence of contexts, after any
number of calls to `update_alignment_inertia_with_meaning_pressure` that
includes at least one call for that (agent, activity) pair, the stored
inertia value for the pair lies in [0.05, 10.0]. -/
theorem inertia_always_in_bounds (calls : List UpdateCall) (p : String) (a : ActivityType)
    (h : ∃ c ∈ calls, c.person = p ∧ c.activity = a) :
    InertiaInRange ((applyUpdates calls MPState.init).alignment_inertia p a) :=
  applyUpdates_inRange calls MPState.init p a (Or.inl h)

/-- Witness for C1 at a concrete one-call sequence. -/
theorem inertia_always_in_bounds_witness :
    InertiaInRange
      ((applyUpdates [⟨"A", ActivityType.HUNTING, {}, 98/100⟩]
        MPState.init).alignment_inertia "A" ActivityType.HUNTING) :=
  inertia_always_in_bounds _ _ _
    ⟨⟨"A", ActivityType.HUNTING, {}, 98/100⟩, List.mem_singleton.mpr rfl, rfl, rfl⟩

lemma base_pressure_nonneg (l : MeaningLevel) : 0 ≤ base_pressure l := by
  cases l <;> norm_num [base_pressure]

lemma ite_nonneg_q {q : Prop} [Decidable q] (x : ℚ) (hx : 0 ≤ x) :
    0 ≤ if q then x else 0 := by
  split_ifs
  · exact hx
  · exact le_refl 0

lemma complexity_one_le (a : ActivityType) (c : Ctx) :
    1 ≤ assess_activity_complexity a c := by
  have h1 := ite_nonneg_q (q := c.collaboration = true) (3/10 : ℚ) (by norm_num)
  have h2 := ite_nonneg_q (q := c.time_pressure = true) (2/10 : ℚ) (by norm_num)
  have h3 := ite_nonneg_q (q := c.resource_scarcity = true) (4/10 : ℚ) (by norm_num)
  have h4 := ite_nonneg_q (q := c.weather_bad = true) (3/10 : ℚ) (by norm_num)
  have h5 := ite_nonneg_q (q := c.group_coordination = true) (4/10 : ℚ) (by norm_num)
  have h6 := ite_nonneg_q (q := c.multiple_patients = true) (5/10 : ℚ) (by norm_num)
  have h7 := ite_nonneg_q (q := c.diagnosis_difficulty = true) (6/10 : ℚ) (by norm_num)
  have h8 := ite_nonneg_q (q := c.limited_ingredients = true) (4/10 : ℚ) (by norm_num)
  have h9 := ite_nonneg_q (q := c.large_group = true) (3/10 : ℚ) (by norm_num)
  have h10 := ite_nonneg_q (q := c.limited_materials = true) (5/10 : ℚ) (by norm_num)
  have h11 := ite_nonneg_q (q := c.structural_requirements = true) (6/10 : ℚ) (by norm_num)
  have h12 := ite_nonneg_q (q := c.team_coordination = true) (4/10 : ℚ) (by norm_num)
  cases a <;>
    (simp only [assess_activity_complexity]
     refine le_min (by norm_num) ?_
     linarith)

lemma log_nat_nonneg (n : ℕ) : 0 ≤ Real.log (n : ℝ) := by
  cases n with
  | zero => simp
  | succ m =>
      refine Real.log_nonneg ?_
      have : (0:ℝ) ≤ (m : ℝ) := Nat.cast_nonneg m
      push_cast
      linarith

lemma social_impact_nonneg (c : Ctx) : 0 ≤ calculate_social_impact c := by
  unfold calculate_social_impact
  have h0 : (0:ℝ) ≤ 1 * (1 + Real.log (c.people_affected : ℝ) * (2/10)) := by
    nlinarith [log_nat_nonneg c.people_affected]
  split_ifs <;> refine le_min (by norm_num) (by nlinarith)

lemma decay_rate_nonneg (a : ActivityType) : 0 ≤ decay_rate a := by
  cases a <;> norm_num [decay_rate]

lemma repetition_decay_le_of_le (a : ActivityType) {m n : ℕ} (h : m ≤ n) :
    repetition_decay_factor a n ≤ repetition_decay_factor a m := by
  unfold repetition_decay_factor
  refine max_le_max (le_refl _) (Real.exp_le_exp.mpr ?_)
  have hr : (0:ℝ) ≤ ((decay_rate a : ℚ) : ℝ) := by
    exact_mod_cast decay_rate_nonneg a
  have hmn : (m:ℝ) ≤ (n:ℝ) := Nat.cast_le.mpr h
  nlinarith

lemma repetition_decay_ge (a : ActivityType) (n : ℕ) :
    3/10 ≤ repetition_decay_factor a n := le_max_left _ _

lemma meaning_pressure_at_antitone (a : ActivityType) (c : Ctx) {m n : ℕ} (h : m ≤ n) :
    meaning_pressure_at a c n ≤ meaning_pressure_at a c m := by
  unfold meaning_pressure_at
  refine max_le_max (le_refl _) ?_
  have hbp : (0:ℝ) ≤ ((base_pressure (assess_meaning_level a c) : ℚ) : ℝ) := by
    exact_mod_cast base_pressure_nonneg _
  have hcx : (0:ℝ) ≤ ((assess_activity_complexity a c : ℚ) : ℝ) := by
    have := complexity_one_le a c
    have h1 : (1:ℝ) ≤ ((assess_activity_complexity a c : ℚ) : ℝ) := by exact_mod_cast this
    linarith
  have hsi := social_impact_nonneg c
  have hdm := repetition_decay_le_of_le a h
  have h1 : ((base_pressure (assess_meaning_level a c) : ℚ) : ℝ)
        * ((assess_activity_complexity a c : ℚ) : ℝ) * repetition_decay_factor a n
      ≤ ((base_pressure (assess_meaning_level a c) : ℚ) : ℝ)
        * ((assess_activity_complexity a c : ℚ) : ℝ) * repetition_decay_factor a m := by
    rw [mul_assoc, mul_assoc]
    exact mul_le_mul_of_nonneg_left (mul_le_mul_of_nonneg_left hdm hcx) hbp
  exact mul_le_mul_of_nonneg_right h1 hsi

lemma meaning_pressure_at_floor (a : ActivityType) (c : Ctx) (n : ℕ) :
    ((base_pressure (assess_meaning_level a c) : ℚ) : ℝ)
        * ((assess_activity_complexity a c : ℚ) : ℝ)
        * calculate_social_impact c * (3/10)
      ≤ meaning_pressure_at a c n := by
  unfold meaning_pressure_at
  refine le_trans ?_ (le_max_right _ _)
  have hbp : (0:ℝ) ≤ ((base_pressure (assess_meaning_level a c) : ℚ) : ℝ) := by
    exact_mod_cast base_pressure_nonneg _
  have hcx : (0:ℝ) ≤ ((assess_activity_complexity a c : ℚ) : ℝ) := by
    have := complexity_one_le a c
    have h1 : (1:ℝ) ≤ ((assess_activity_complexity a c : ℚ) : ℝ) := by exact_mod_cast this
    linarith
  have hsi := social_impact_nonneg c
  have hdg := repetition_decay_ge a n
  have h1 : ((base_pressure (assess_meaning_level a c) : ℚ) : ℝ)
        * ((assess_activity_complexity a c : ℚ) : ℝ) * (3/10)
      ≤ ((base_pressure (assess_meaning_level a c) : ℚ) : ℝ)
        * ((assess_activity_complexity a c : ℚ) : ℝ) * repetition_decay_factor a n := by
    rw [mul_assoc, mul_assoc]
    exact mul_le_mul_of_nonneg_left (mul_le_mul_of_nonneg_left hdg hcx) hbp
  calc ((base_pressure (assess_meaning_level a c) : ℚ) : ℝ)
        * ((assess_activity_complexity a c : ℚ) : ℝ)
        * calculate_social_impact c * (3/10)
      = ((base_pressure (assess_meaning_level a c) : ℚ) : ℝ)
        * ((assess_activity_complexity a c : ℚ) : ℝ) * (3/10)
        * calculate_social_impact c := by ring
    _ ≤ ((base_pressure (assess_meaning_level a c) : ℚ) : ℝ)
        * ((assess_activity_complexity a c : ℚ) : ℝ) * repetition_decay_factor a n
        * calculate_social_impact c := mul_le_mul_of_nonneg_right h1 hsi

/-- Iterate the (side-effecting) `calculate_meaning_pressure` call `n`
times on the same (person, activity, context). -/
noncomputable def iterate_calc (p : String) (a : ActivityType) (c : Ctx) :
    ℕ → MPState → MPState
  | 0, s => s
  | n + 1, s => iterate_calc p a c n (calculate_meaning_pressure s p a c).2

/-- The pressure returned by the (n+1)-st successive
`calculate_meaning_pressure` call starting from state `s`. -/
noncomputable def nth_call_pressure (s : MPState) (p : String) (a : ActivityType)
    (c : Ctx) (n : ℕ) : ℝ :=
  (calculate_meaning_pressure (iterate_calc p a c n s) p a c).1

lemma iterate_calc_counter (p : String) (a : ActivityType) (c : Ctx) (n : ℕ)
    (s : MPState) :
    (iterate_calc p a c n s).repetition_counter p a = s.repetition_counter p a + n := by
  induction n generalizing s with
  | zero => rfl
  | succ m ih =>
      show (iterate_calc p a c m _).repetition_counter p a = _
      rw [ih]
      simp only [calculate_meaning_pressure, MPState.setCounter, and_self, if_true, if_pos]
      omega

lemma nth_call_pressure_eq (s : MPState) (p : String) (a : ActivityType) (c : Ctx)
    (n : ℕ) :
    nth_call_pressure s p a c n = meaning_pressure_at a c (s.repetition_counter p a + n) := by
  unfold nth_call_pressure calculate_meaning_pressure
  rw [iterate_calc_counter]

/-- C3.  For a fixed agent, activity, and context, the value returned by
`calculate_meaning_pressure` is non-increasing across successive calls
(the repetition counter grows by one per call), and every returned value
is at least `base_pressure * complexity * social_impact * 0.3`. -/
theorem meaning_pressure_repetition_monotone (s : MPState) (p : String)
    (a : ActivityType) (c : Ctx) (n₁ n₂ : ℕ) (h : n₁ ≤ n₂) :
    nth_call_pressure s p a c n₂ ≤ nth_call_pressure s p a c n₁ ∧
    ∀ n, ((base_pressure (assess_meaning_level a c) : ℚ) : ℝ)
        * ((assess_activity_complexity a c : ℚ) : ℝ)
        * calculate_social_impact c * (3/10)
      ≤ nth_call_pressure s p a c n := by
  constructor
  · rw [nth_call_pressure_eq, nth_call_pressure_eq]
    exact meaning_pressure_at_antitone a c (by omega)
  · intro n
    rw [nth_call_pressure_eq]
    exact meaning_pressure_at_floor a c _

/-- Witness for C3: second call versus first call on a fresh state. -/
theorem meaning_pressure_repetition_monotone_witness :
    nth_call_pressure MPState.init "A" ActivityType.HUNTING {} 1
      ≤ nth_call_pressure MPState.init "A" ActivityType.HUNTING {} 0 ∧
    ∀ n, ((base_pressure (assess_meaning_level ActivityType.HUNTING {}) : ℚ) : ℝ)
        * ((assess_activity_complexity ActivityType.HUNTING {} : ℚ) : ℝ)
        * calculate_social_impact {} * (3/10)
      ≤ nth_call_pressure MPState.init "A" ActivityType.HUNTING {} n :=
  meaning_pressure_repetition_monotone MPState.init "A" ActivityType.HUNTING {} 0 1
    (by decide)

lemma update_counter_plus_two (s : MPState) (p : String) (a : ActivityType) (c : Ctx)
    (td : ℝ) :
    (update_alignment_inertia_with_meaning_pressure s p a c td).2.repetition_counter p a
      = s.repetition_counter p a + 2 := by
  unfold update_alignment_inertia_with_meaning_pressure update_experience_history
    calculate_meaning_pressure MPState.setCounter MPState.setInertia MPState.setHistory
  simp only [and_self, if_true, if_pos]

lemma update_history_last (s : MPState) (p : String) (a : ActivityType) (c : Ctx)
    (td : ℝ) :
    (((update_alignment_inertia_with_meaning_pressure s p a c td).2.experience_history
        p a).getLast?).map (fun e => (e.context, e.meaning_pressure))
      = some (c, meaning_pressure_at a c (s.repetition_counter p a + 1)) := by
  unfold update_alignment_inertia_with_meaning_pressure update_experience_history
    calculate_meaning_pressure MPState.setCounter MPState.setInertia MPState.setHistory
  simp only [and_self, if_true, if_pos]
  split
  · next hlen =>
      rw [List.drop_append_of_le_length
        (by simp only [List.length_append, List.length_cons, List.length_nil]; omega)]
      rw [List.getLast?_concat]
      rfl
  · rw [List.getLast?_concat]
    rfl

lemma mp_hunting_routine_at_zero :
    meaning_pressure_at ActivityType.HUNTING { success := true, effectiveness := 7/10 } 0
      = 1/2 := by
  unfold meaning_pressure_at repetition_decay_factor calculate_social_impact
  norm_num [assess_meaning_level, base_pressure, assess_activity_complexity, decay_rate,
    Real.exp_zero, Real.log_one]

lemma mp_hunting_emergency_at_zero :
    meaning_pressure_at ActivityType.HUNTING { success := true, emergency := true } 0
      = 3 := by
  unfold meaning_pressure_at repetition_decay_factor calculate_social_impact
  norm_num [assess_meaning_level, base_pressure, assess_activity_complexity, decay_rate,
    Real.exp_zero, Real.log_one]

/-- C10.  One call to `update_alignment_inertia_with_meaning_pressure`
increments the repetition counter for the pair by exactly 2: the pressure
that drives the inertia update is evaluated at the pre-call count, while
the pressure recomputed for the appended experience-history record is
evaluated at count + 1 — and at a concrete routine hunting context the
recorded pressure is strictly lower than the driving one. -/
theorem update_counts_twice_and_history_lags (s : MPState) (p : String)
    (a : ActivityType) (c : Ctx) (td : ℝ) :
    ((update_alignment_inertia_with_meaning_pressure s p a c td).2.repetition_counter p a
        = s.repetition_counter p a + 2) ∧
    ((calculate_meaning_pressure s p a c).1
        = meaning_pressure_at a c (s.repetition_counter p a)) ∧
    ((((update_alignment_inertia_with_meaning_pressure s p a c td).2.experience_history
          p a).getLast?).map (fun e => (e.context, e.meaning_pressure))
        = some (c, meaning_pressure_at a c (s.repetition_counter p a + 1))) ∧
    meaning_pressure_at ActivityType.HUNTING { success := true, effectiveness := 7/10 } 1
      < meaning_pressure_at ActivityType.HUNTING { success := true, effectiveness := 7/10 } 0 := by
  refine ⟨update_counter_plus_two s p a c td, rfl, update_history_last s p a c td, ?_⟩
  rw [mp_hunting_routine_at_zero]
  have hb : ((base_pressure (assess_meaning_level ActivityType.HUNTING
      { success := true, effectiveness := 7/10 }) : ℚ) : ℝ) = 1/2 := by
    norm_num [assess_meaning_level, base_pressure]
  have hc : ((assess_activity_complexity ActivityType.HUNTING
      { success := true, effectiveness := 7/10 } : ℚ) : ℝ) = 1 := by
    norm_num [assess_activity_complexity]
  unfold meaning_pressure_at repetition_decay_factor calculate_social_impact
  rw [hb, hc]
  norm_num [decay_rate, Real.log_one]

/-- C2 counterexample.  A context with `success=True` and `emergency=True`
is NOT classified PROFOUND for every activity type: for CAREGIVING the
rules never consult `emergency`, and the context classifies ROUTINE. -/
theorem caregiving_emergency_not_profound :
    assess_meaning_level ActivityType.CAREGIVING { success := true, emergency := true }
        = MeaningLevel.ROUTINE ∧
    assess_meaning_level ActivityType.CAREGIVING { success := true, emergency := true }
        ≠ MeaningLevel.PROFOUND := by
  have h : assess_meaning_level ActivityType.CAREGIVING { success := true, emergency := true }
      = MeaningLevel.ROUTINE := by
    norm_num [assess_meaning_level]
  exact ⟨h, by rw [h]; decide⟩

/-- C2 amended.  For HUNTING (the one activity whose rules consult the
`emergency` flag), `success=True ∧ emergency=True` classifies PROFOUND
with base pressure 2.0, and the single-call inertia delta from the fresh
state is strictly higher than that of an otherwise-identical ROUTINE call
(`success=True, effectiveness=0.7`). -/
theorem hunting_emergency_profound_higher_delta :
    assess_meaning_level ActivityType.HUNTING { success := true, emergency := true }
        = MeaningLevel.PROFOUND ∧
    base_pressure (assess_meaning_level ActivityType.HUNTING
        { success := true, emergency := true }) = 2 ∧
    assess_meaning_level ActivityType.HUNTING { success := true, effectiveness := 7/10 }
        = MeaningLevel.ROUTINE ∧
    (update_alignment_inertia_with_meaning_pressure MPState.init "A" ActivityType.HUNTING
          { success := true, effectiveness := 7/10 } (98/100)).1
        - MPState.init.alignment_inertia "A" ActivityType.HUNTING
      < (update_alignment_inertia_with_meaning_pressure MPState.init "A" ActivityType.HUNTING
          { success := true, emergency := true } (98/100)).1
        - MPState.init.alignment_inertia "A" ActivityType.HUNTING := by
  refine ⟨by norm_num [assess_meaning_level], ?_, by norm_num [assess_meaning_level], ?_⟩
  · rw [show assess_meaning_level ActivityType.HUNTING
        { success := true, emergency := true } = MeaningLevel.PROFOUND from
      by norm_num [assess_meaning_level]]
    rfl
  have hvP : (update_alignment_inertia_with_meaning_pressure MPState.init "A"
      ActivityType.HUNTING { success := true, emergency := true } (98/100)).1 = 243/1000 := by
    simp only [update_alignment_inertia_with_meaning_pressure, calculate_meaning_pressure,
      MPState.init]
    rw [mp_hunting_emergency_at_zero]
    norm_num [base_alignment, activity_resistance, get_learning_rate]
  have hvR : (update_alignment_inertia_with_meaning_pressure MPState.init "A"
      ActivityType.HUNTING { success := true, effectiveness := 7/10 } (98/100)).1 = 5/100 := by
    simp only [update_alignment_inertia_with_meaning_pressure, calculate_meaning_pressure,
      MPState.init]
    rw [mp_hunting_routine_at_zero]
    norm_num [base_alignment, activity_resistance, get_learning_rate]
  rw [hvP, hvR]
  norm_num [MPState.init]

/-- Modelled from the spec: the per-NPC `SubjectiveBoundary` container lives
in the external `ssd_core_engine` package, which is not under this
repository's src.  Per the spec, boundary strength is a signed scalar
keyed by target id defaulting to 0, and inner / outer membership are sets
of target ids; `initialize_npc_boundaries` starts them empty. -/
structure Boundary where
  boundary_strength : String → ℚ
  inner_objects : String → Bool
  outer_objects : String → Bool

/-- Freshly initialized boundary state: zero strengths, empty sets. -/
def Boundary.init : Boundary :=
  { boundary_strength := fun _ => 0
    inner_objects := fun _ => false
    outer_objects := fun _ => false }

/-- The clamped new strength `max(-1, min(1, old + 0.15 * valence))`
written by `_update_subjective_boundary`. -/
def new_boundary_strength (b : Boundary) (target : String) (valence : ℚ) : ℚ :=
  max (-1) (min 1 (b.boundary_strength target + (15/100) * valence))

/-- `_update_subjective_boundary` from `village_ssd_adapter.py`: move the
strength by `0.15 * valence`, clamp to [-1, 1], then add the target to the
inner set if the new strength exceeds 0.3 (discarding it from outer), to
the outer set if it is below -0.3 (discarding it from inner) — and leave
both sets untouched otherwise. -/
def update_subjective_boundary (b : Boundary) (target : String) (valence : ℚ) : Boundary :=
  let new_strength := new_boundary_strength b target valence
  let strength' := fun t => if t = target then new_strength else b.boundary_strength t
  if new_strength > 3/10 then
    { boundary_strength := strength'
      inner_objects := fun t => if t = target then true else b.inner_objects t
      outer_objects := fun t => if t = target then false else b.outer_objects t }
  else if new_strength < -(3/10) then
    { boundary_strength := strength'
      inner_objects := fun t => if t = target then false else b.inner_objects t
      outer_objects := fun t => if t = target then true else b.outer_objects t }
  else
    { boundary_strength := strength'
      inner_objects := b.inner_objects
      outer_objects := b.outer_objects }

/-- `calculate_trust_level` from `village_ssd_adapter.py`.  `none` models a
missing evaluator boundary (neutral 0.5). -/
def calculate_trust_level (b? : Option Boundary) (target domain : String) : ℚ :=
  match b? with
  | none => 5/10
  | some b =>
      let s := b.boundary_strength target
      let trust :=
        if b.inner_objects target then 7/10 + s * (25/100)
        else if b.outer_objects target then 3/10 + max 0 (s * (2/10))
        else 5/10 + s * (3/10)
      let trust :=
        if domain = "cooperation" then trust * (11/10)
        else if domain = "resource_sharing" then trust * (9/10)
        else trust
      max 0 (min 1 trust)

/-- The trust formula exactly as the spec's words state it (used only to
compare the spec against the implementation): inner (`strength>0.3`)
`0.7+strength*0.25`; outer (`strength<-0.3`) `0.3+max(0,(strength+1.0)*0.2)`;
neutral `0.5+strength*0.3`; then the domain multiplier and a clamp. -/
def spec_trust_level (s : ℚ) (domain : String) : ℚ :=
  let trust :=
    if s > 3/10 then 7/10 + s * (25/100)
    else if s < -(3/10) then 3/10 + max 0 ((s + 1) * (2/10))
    else 5/10 + s * (3/10)
  let trust :=
    if domain = "cooperation" then trust * (11/10)
    else if domain = "resource_sharing" then trust * (9/10)
    else trust
  max 0 (min 1 trust)

lemma upd_strength_at (b : Boundary) (target : String) (v : ℚ) :
    (update_subjective_boundary b target v).boundary_strength target
      = new_boundary_strength b target v := by
  simp only [update_subjective_boundary]
  split_ifs <;> simp

lemma upd_inner_at (b : Boundary) (target : String) (v : ℚ) :
    (update_subjective_boundary b target v).inner_objects target
      = if new_boundary_strength b target v > 3/10 then true
        else if new_boundary_strength b target v < -(3/10) then false
        else b.inner_objects target := by
  simp only [update_subjective_boundary]
  split_ifs <;> simp

lemma upd_outer_at (b : Boundary) (target : String) (v : ℚ) :
    (update_subjective_boundary b target v).outer_objects target
      = if new_boundary_strength b target v > 3/10 then false
        else if new_boundary_strength b target v < -(3/10) then true
        else b.outer_objects target := by
  simp only [update_subjective_boundary]
  split_ifs <;> simp

/-- First two steps toward the outer state: valences -1, -1 on "t"
(strengths -0.15, -0.30 — the second still inside the neutral band). -/
def btn1 : Boundary := update_subjective_boundary Boundary.init "t" (-1)

def btn2 : Boundary := update_subjective_boundary btn1 "t" (-1)

/-- Boundary state of an evaluator after three valence -1.0 experiences
toward "t" (strengths -0.15, -0.30, -0.45; "t" enters the outer set on the
third call). -/
def boundary_three_neg : Boundary := update_subjective_boundary btn2 "t" (-1)

lemma btn1_strength : btn1.boundary_strength "t" = -(3/20) := by
  rw [btn1, upd_strength_at]
  unfold new_boundary_strength Boundary.init
  norm_num [max_def, min_def]

lemma btn1_inner : btn1.inner_objects "t" = false := by
  rw [btn1, upd_inner_at]
  unfold new_boundary_strength Boundary.init
  norm_num [max_def, min_def]

lemma btn1_outer : btn1.outer_objects "t" = false := by
  rw [btn1, upd_outer_at]
  unfold new_boundary_strength Boundary.init
  norm_num [max_def, min_def]

lemma btn2_ns : new_boundary_strength btn1 "t" (-1) = -(3/10) := by
  unfold new_boundary_strength
  rw [btn1_strength]
  norm_num [max_def, min_def]

lemma btn2_strength : btn2.boundary_strength "t" = -(3/10) := by
  rw [btn2, upd_strength_at, btn2_ns]

lemma btn2_inner : btn2.inner_objects "t" = false := by
  rw [btn2, upd_inner_at, btn2_ns]
  norm_num [btn1_inner]

lemma btn2_outer : btn2.outer_objects "t" = false := by
  rw [btn2, upd_outer_at, btn2_ns]
  norm_num [btn1_outer]

lemma btn3_ns : new_boundary_strength btn2 "t" (-1) = -(9/20) := by
  unfold new_boundary_strength
  rw [btn2_strength]
  norm_num [max_def, min_def]

lemma boundary_three_neg_strength : boundary_three_neg.boundary_strength "t" = -(9/20) := by
  rw [boundary_three_neg, upd_strength_at, btn3_ns]

lemma boundary_three_neg_outer : boundary_three_neg.outer_objects "t" = true := by
  rw [boundary_three_neg, upd_outer_at, btn3_ns]
  norm_num

lemma boundary_three_neg_inner : boundary_three_neg.inner_objects "t" = false := by
  rw [boundary_three_neg, upd_inner_at, btn3_ns]
  norm_num

/-- C4 counterexample.  At boundary strength -0.45 (outer), the
implementation returns trust 0.3 (`0.3 + max(0, strength*0.2)` with a
negative strength) while the spec's formula `0.3 + max(0,(strength+1)*0.2)`
gives 0.41: the claimed formula does not describe the code. -/
theorem trust_outer_branch_counterexample :
    calculate_trust_level (some boundary_three_neg) "t" "general" = 3/10 ∧
    spec_trust_level (boundary_three_neg.boundary_strength "t") "general" = 41/100 ∧
    calculate_trust_level (some boundary_three_neg) "t" "general"
      ≠ spec_trust_level (boundary_three_neg.boundary_strength "t") "general" := by
  have hdg : ∀ x : ℚ, (if ("general" : String) = "cooperation" then x * (11/10)
      else if ("general" : String) = "resource_sharing" then x * (9/10) else x) = x := by
    intro x
    rw [if_neg (by decide), if_neg (by decide)]
  have h1 : calculate_trust_level (some boundary_three_neg) "t" "general" = 3/10 := by
    simp only [calculate_trust_level]
    rw [boundary_three_neg_inner, boundary_three_neg_outer, boundary_three_neg_strength]
    simp only [Bool.false_eq_true, if_false, if_true, if_neg, not_false_iff, hdg]
    norm_num
  have h2 : spec_trust_level (boundary_three_neg.boundary_strength "t") "general"
      = 41/100 := by
    rw [boundary_three_neg_strength]
    simp only [spec_trust_level, hdg]
    norm_num
  exact ⟨h1, h2, by rw [h1, h2]; norm_num⟩

/-- Mutual exclusivity of the inner and outer sets. -/
def BoundaryMutExcl (b : Boundary) : Prop :=
  ∀ t, ¬(b.inner_objects t = true ∧ b.outer_objects t = true)

/-- C4 amended.  The implementation's trust level is the piecewise-linear
map of boundary strength with outer branch `0.3 + max(0, strength*0.2)`
(not the spec's `(strength+1)*0.2`), branching on the stored inner/outer
classification; when that classification agrees with the strength
thresholds the branch is selected by the strength itself, the domain
multiplier (cooperation ×1.1, resource_sharing ×0.9, else ×1.0) is
applied, and the result is clamped to [0,1] — the clamp holding
unconditionally. -/
theorem calculate_trust_level_amended (b : Boundary) (t d : String)
    (hin : b.inner_objects t = true ↔ b.boundary_strength t > 3/10)
    (hout : b.outer_objects t = true ↔ b.boundary_strength t < -(3/10)) :
    calculate_trust_level (some b) t d
      = max 0 (min 1
          ((if b.boundary_strength t > 3/10 then 7/10 + b.boundary_strength t * (25/100)
            else if b.boundary_strength t < -(3/10) then
              3/10 + max 0 (b.boundary_strength t * (2/10))
            else 5/10 + b.boundary_strength t * (3/10))
           * (if d = "cooperation" then 11/10
              else if d = "resource_sharing" then 9/10 else 1))) ∧
    0 ≤ calculate_trust_level (some b) t d ∧ calculate_trust_level (some b) t d ≤ 1 := by
  refine ⟨?_, le_max_left _ _, max_le (by norm_num) (min_le_left _ _)⟩
  simp only [calculate_trust_level]
  by_cases h1 : b.boundary_strength t > 3/10
  · have hbi : b.inner_objects t = true := hin.mpr h1
    rw [hbi, if_pos h1]
    simp only [if_true]
    split_ifs <;> ring_nf
  · have hbi : b.inner_objects t = false := by
      cases hb : b.inner_objects t
      · rfl
      · exact absurd (hin.mp hb) h1
    rw [hbi, if_neg h1]
    simp only [Bool.false_eq_true, if_false]
    by_cases h2 : b.boundary_strength t < -(3/10)
    · have hbo : b.outer_objects t = true := hout.mpr h2
      rw [hbo, if_pos h2]
      simp only [if_true]
      split_ifs <;> ring_nf
    · have hbo : b.outer_objects t = false := by
        cases hb : b.outer_objects t
        · rfl
        · exact absurd (hout.mp hb) h2
      rw [hbo, if_neg h2]
      simp only [Bool.false_eq_true, if_false]
      split_ifs <;> ring_nf

/-- Witness for C4 amended at the fresh (threshold-consistent) boundary. -/
theorem calculate_trust_level_amended_witness :
    calculate_trust_level (some Boundary.init) "t" "general"
      = max 0 (min 1
          ((if Boundary.init.boundary_strength "t" > 3/10 then
              7/10 + Boundary.init.boundary_strength "t" * (25/100)
            else if Boundary.init.boundary_strength "t" < -(3/10) then
              3/10 + max 0 (Boundary.init.boundary_strength "t" * (2/10))
            else 5/10 + Boundary.init.boundary_strength "t" * (3/10))
           * (if "general" = "cooperation" then 11/10
              else if "general" = "resource_sharing" then 9/10 else 1))) ∧
    0 ≤ calculate_trust_level (some Boundary.init) "t" "general" ∧
    calculate_trust_level (some Boundary.init) "t" "general" ≤ 1 :=
  calculate_trust_level_amended Boundary.init "t" "general"
    (by norm_num [Boundary.init]) (by norm_num [Boundary.init])

/-- First three steps toward the stale-inner state: valences +1, +1, +1 on
"t" (strengths 0.15, 0.30, 0.45). -/
def bsi1 : Boundary := update_subjective_boundary Boundary.init "t" 1

def bsi2 : Boundary := update_subjective_boundary bsi1 "t" 1

def bsi3 : Boundary := update_subjective_boundary bsi2 "t" 1

/-- Boundary state after experiences with valences +1, +1, +1, -1 toward
"t": strengths 0.15, 0.30, 0.45 (inner on the third call), then back to
0.30 — where the neutral band leaves the inner set untouched. -/
def boundary_stale_inner : Boundary := update_subjective_boundary bsi3 "t" (-1)

lemma bsi1_strength : bsi1.boundary_strength "t" = 3/20 := by
  rw [bsi1, upd_strength_at]
  unfold new_boundary_strength Boundary.init
  norm_num [max_def, min_def]

lemma bsi1_inner : bsi1.inner_objects "t" = false := by
  rw [bsi1, upd_inner_at]
  unfold new_boundary_strength Boundary.init
  norm_num [max_def, min_def]

lemma bsi2_ns : new_boundary_strength bsi1 "t" 1 = 3/10 := by
  unfold new_boundary_strength
  rw [bsi1_strength]
  norm_num [max_def, min_def]

lemma bsi2_strength : bsi2.boundary_strength "t" = 3/10 := by
  rw [bsi2, upd_strength_at, bsi2_ns]

lemma bsi2_inner : bsi2.inner_objects "t" = false := by
  rw [bsi2, upd_inner_at, bsi2_ns]
  norm_num [bsi1_inner]

lemma bsi3_ns : new_boundary_strength bsi2 "t" 1 = 9/20 := by
  unfold new_boundary_strength
  rw [bsi2_strength]
  norm_num [max_def, min_def]

lemma bsi3_strength : bsi3.boundary_strength "t" = 9/20 := by
  rw [bsi3, upd_strength_at, bsi3_ns]

lemma bsi3_inner : bsi3.inner_objects "t" = true := by
  rw [bsi3, upd_inner_at, bsi3_ns]
  norm_num

lemma stale_ns : new_boundary_strength bsi3 "t" (-1) = 3/10 := by
  unfold new_boundary_strength
  rw [bsi3_strength]
  norm_num [max_def, min_def]

/-- C5 counterexample.  After the fourth `_update_subjective_boundary` call
the strength is 0.30 — inside the neutral band — yet "t" is still a member
of the inner set, so the stored classification does not match the
documented thresholds (inner iff strength > 0.3). -/
theorem boundary_classification_counterexample :
    boundary_stale_inner.inner_objects "t" = true ∧
    boundary_stale_inner.boundary_strength "t" = 3/10 ∧
    ¬(boundary_stale_inner.boundary_strength "t" > 3/10) := by
  have hi : boundary_stale_inner.inner_objects "t" = true := by
    rw [boundary_stale_inner, upd_inner_at, stale_ns]
    norm_num [bsi3_inner]
  have hs : boundary_stale_inner.boundary_strength "t" = 3/10 := by
    rw [boundary_stale_inner, upd_strength_at, stale_ns]
  exact ⟨hi, hs, by rw [hs]; norm_num⟩

/-- C5 amended.  `_update_subjective_boundary` keeps the inner and outer
sets mutually exclusive, and the stored classification matches the
thresholds whenever the freshly clamped strength lies outside the neutral
band [-0.3, 0.3]: new strength > 0.3 puts the target in inner (and out of
outer), new strength < -0.3 puts it in outer (and out of inner); inside
the band both sets are left exactly as they were, so a prior
classification persists even though the strength is now neutral. -/
theorem update_boundary_classification (b : Boundary) (target : String) (v : ℚ)
    (hmx : BoundaryMutExcl b) :
    BoundaryMutExcl (update_subjective_boundary b target v) ∧
    (update_subjective_boundary b target v).boundary_strength target
      = new_boundary_strength b target v ∧
    (new_boundary_strength b target v > 3/10 →
      (update_subjective_boundary b target v).inner_objects target = true ∧
      (update_subjective_boundary b target v).outer_objects target = false) ∧
    (new_boundary_strength b target v < -(3/10) →
      (update_subjective_boundary b target v).outer_objects target = true ∧
      (update_subjective_boundary b target v).inner_objects target = false) ∧
    (¬ new_boundary_strength b target v > 3/10 →
      ¬ new_boundary_strength b target v < -(3/10) →
      (update_subjective_boundary b target v).inner_objects = b.inner_objects ∧
      (update_subjective_boundary b target v).outer_objects = b.outer_objects) := by
  unfold update_subjective_boundary
  by_cases hpos : new_boundary_strength b target v > 3/10
  · rw [if_pos hpos]
    refine ⟨?_, by simp, fun _ => ⟨by simp, by simp⟩,
      fun hneg => absurd hpos (by intro _; linarith), fun hn _ => absurd hpos hn⟩
    intro t ⟨hi, ho⟩
    by_cases ht : t = target
    · simp [ht] at ho
    · simp only [ht, if_neg, if_false] at hi ho
      exact hmx t ⟨hi, ho⟩
  · rw [if_neg hpos]
    by_cases hneg : new_boundary_strength b target v < -(3/10)
    · rw [if_pos hneg]
      refine ⟨?_, by simp, fun hp => absurd hp hpos, fun _ => ⟨by simp, by simp⟩,
        fun _ hn => absurd hneg hn⟩
      intro t ⟨hi, ho⟩
      by_cases ht : t = target
      · simp [ht] at hi
      · simp only [ht, if_neg, if_false] at hi ho
        exact hmx t ⟨hi, ho⟩
    · rw [if_neg hneg]
      exact ⟨hmx, by simp, fun hp => absurd hp hpos, fun hn => absurd hn hneg,
        fun _ _ => ⟨rfl, rfl⟩⟩

/-- Witness for C5 amended: one positive-valence call on a fresh boundary. -/
theorem update_boundary_classification_witness :
    BoundaryMutExcl (update_subjective_boundary Boundary.init "t" 1) ∧
    (update_subjective_boundary Boundary.init "t" 1).boundary_strength "t"
      = new_boundary_strength Boundary.init "t" 1 ∧
    (new_boundary_strength Boundary.init "t" 1 > 3/10 →
      (update_subjective_boundary Boundary.init "t" 1).inner_objects "t" = true ∧
      (update_subjective_boundary Boundary.init "t" 1).outer_objects "t" = false) ∧
    (new_boundary_strength Boundary.init "t" 1 < -(3/10) →
      (update_subjective_boundary Boundary.init "t" 1).outer_objects "t" = true ∧
      (update_subjective_boundary Boundary.init "t" 1).inner_objects "t" = false) ∧
    (¬ new_boundary_strength Boundary.init "t" 1 > 3/10 →
      ¬ new_boundary_strength Boundary.init "t" 1 < -(3/10) →
      (update_subjective_boundary Boundary.init "t" 1).inner_objects
        = Boundary.init.inner_objects ∧
      (update_subjective_boundary Boundary.init "t" 1).outer_objects
        = Boundary.init.outer_objects) :=
  update_boundary_classification Boundary.init "t" 1
    (fun t h => by simp [Boundary.init] at h)

/-- Rumor categories, from `RumorType` in `rumor_system.py`. -/
inductive RumorType where
  | HUNTING_SKILL
  | CAREGIVING_SKILL
  | SOCIAL_SKILL
  | CRAFTING_SKILL
  | LEADERSHIP
  | KINDNESS
deriving DecidableEq, Repr

/-- The `Rumor` dataclass.  Its source comments document
`intensity (0.0-1.0)` and `confidence (0.0-1.0)`. -/
structure Rumor where
  target_name : String
  rumor_type : RumorType
  content : String
  positive : Bool
  intensity : ℚ
  source_name : String
  confidence : ℚ
  witnesses : List String
  creation_time : ℕ
deriving DecidableEq

/-- `personality_gossip_tendency` lookup, with the `.get(_, 0.3)` default
used by `create_rumor_from_interaction`. -/
def personality_gossip_tendency (p : String) : ℚ :=
  if p = "social" then 8/10
  else if p = "aggressive" then 6/10
  else if p = "competitive" then 7/10
  else if p = "brave" then 4/10
  else if p = "cautious" then 1/10
  else if p = "caring" then 5/10
  else if p = "gentle" then 3/10
  else if p = "helpful" then 4/10
  else if p = "analytical" then 2/10
  else if p = "creative" then 6/10
  else if p = "emotional" then 7/10
  else if p = "practical" then 3/10
  else 3/10

/-- The per-category, per-polarity content template pool (with the
`{True: ["上手い"], False: ["下手"]}` fallback). -/
def content_templates (rt : RumorType) (positive : Bool) : List String :=
  match rt, positive with
  | RumorType.HUNTING_SKILL, true => ["狩りが上手い", "獲物を確実に仕留める", "狩猟の腕前がすごい"]
  | RumorType.HUNTING_SKILL, false => ["狩りが下手", "よく獲物を逃す", "狩猟が苦手"]
  | RumorType.CAREGIVING_SKILL, true => ["看護が上手い", "病人の世話が得意", "治療に長けている"]
  | RumorType.CAREGIVING_SKILL, false => ["看護が下手", "治療に失敗する", "病人の世話が苦手"]
  | _, true => ["上手い"]
  | _, false => ["下手"]

/-- The `RumorSystem` state: active rumors, the append-only history, the
reputation table (initialized names plus their values), and the stored
personalities (`.get(_, "gentle")` default folded into the function). -/
structure RumorSystem where
  active_rumors : List Rumor
  rumor_history : List Rumor
  reputation_names : List String
  village_reputation : String → RumorType → ℚ
  villager_personalities : String → String

/-- `create_rumor_from_interaction`.  The two `random` draws and the
template choice are explicit parameters: `gossip_draw` is the uniform
[0,1) gate draw, `conf_draw` the uniform [0.4, 0.9] confidence draw, and
`content_idx` selects the template.  (The `_apply_ssd_effects` trust-ledger
side effect lives in the external SSD engine and does not touch any rumor
or reputation field.) -/
def create_rumor_from_interaction (sys : RumorSystem)
    (speaker listener subject : String) (rt : RumorType) (positive : Bool)
    (intensity : ℚ) (context : String) (gossip_draw conf_draw : ℚ)
    (content_idx : ℕ) : Option Rumor × RumorSystem :=
  let personality := sys.villager_personalities speaker
  let gossip_chance := personality_gossip_tendency personality
  if gossip_draw > gossip_chance then (none, sys)
  else
    let confidence := conf_draw + (if context = "direct_experience" then 2/10 else 0)
    let templates := content_templates rt positive
    let rumor : Rumor :=
      { target_name := subject
        rumor_type := rt
        content := templates.getD (content_idx % templates.length) ""
        positive := positive
        intensity := min intensity 1
        source_name := speaker
        confidence := confidence
        witnesses := [listener]
        creation_time := sys.rumor_history.length }
    (some rumor,
     { sys with active_rumors := sys.active_rumors ++ [rumor]
                rumor_history := sys.rumor_history ++ [rumor] })

/-- A one-speaker system ("P" has the `social` personality, gossip
propensity 0.8). -/
def rumor_sys0 : RumorSystem :=
  { active_rumors := []
    rumor_history := []
    reputation_names := []
    village_reputation := fun _ _ => 5/10
    villager_personalities := fun p => if p = "P" then "social" else "gentle" }

/-- The over-confident rumor produced at the C6 failing input. -/
def overconfident_rumor : Rumor :=
  { target_name := "S"
    rumor_type := RumorType.HUNTING_SKILL
    content := "狩りが上手い"
    positive := true
    intensity := 8/10
    source_name := "P"
    confidence := 11/10
    witnesses := ["L"]
    creation_time := 0 }

/-- C6 (code bug).  With the maximal legal uniform draw 0.9 and context
"direct_experience" (the context every `create_rumor_from_experience`
fan-out call uses), the created rumor's confidence is 0.9 + 0.2 = 1.1,
exceeding the documented range [0, 1]: the `+ 0.2` bonus is never
clamped. -/
theorem rumor_confidence_exceeds_one :
    ∃ r, (create_rumor_from_interaction rumor_sys0 "P" "L" "S" RumorType.HUNTING_SKILL
        true (8/10) "direct_experience" 0 (9/10) 0).1 = some r ∧
      r.confidence = 11/10 ∧ ¬(r.confidence ≤ 1) ∧
      (4/10 : ℚ) ≤ 9/10 ∧ (9/10 : ℚ) ≤ 9/10 := by
  refine ⟨overconfident_rumor, ?_, by norm_num [overconfident_rumor],
    by norm_num [overconfident_rumor], by norm_num, by norm_num⟩
  simp only [create_rumor_from_interaction, rumor_sys0, personality_gossip_tendency,
    content_templates, overconfident_rumor]
  norm_num [List.getD, min_def]

/-- The active rumors about `name` in category `rt`
(`relevant_rumors` filter of `update_reputation_from_rumors`). -/
def relevant_rumors (sys : RumorSystem) (name : String) (rt : RumorType) : List Rumor :=
  sys.active_rumors.filter (fun r => decide (r.target_name = name) && decide (r.rumor_type = rt))

/-- The total `intensity * confidence` weight over the relevant rumors. -/
def rumor_weight_total (sys : RumorSystem) (name : String) (rt : RumorType) : ℚ :=
  ((relevant_rumors sys name rt).map (fun r => r.intensity * r.confidence)).sum

/-- The weighted sum, with positive rumors valued 0.8 and negative 0.2. -/
def rumor_weighted_sum (sys : RumorSystem) (name : String) (rt : RumorType) : ℚ :=
  ((relevant_rumors sys name rt).map
    (fun r => (if r.positive then 8/10 else 2/10) * (r.intensity * r.confidence))).sum

/-- `update_reputation_from_rumors`: for every initialized (name, category)
pair with relevant active rumors of positive total weight, blend the
weighted average into the stored reputation as `old*0.7 + new*0.3`;
otherwise leave the stored value unchanged. -/
def update_reputation_from_rumors (sys : RumorSystem) : RumorSystem :=
  { sys with village_reputation := fun name rt =>
      if name ∈ sys.reputation_names then
        if relevant_rumors sys name rt ≠ [] then
          if rumor_weight_total sys name rt > 0 then
            sys.village_reputation name rt * (7/10)
              + (rumor_weighted_sum sys name rt / rumor_weight_total sys name rt) * (3/10)
          else sys.village_reputation name rt
        else sys.village_reputation name rt
      else sys.village_reputation name rt }

/-- C8.  One `update_reputation_from_rumors` call moves each stored
(agent, category) value with relevant active rumors to
`old*0.7 + target*0.3`, where `target` is the confidence-and-intensity
weighted average (positive ↦ 0.8, negative ↦ 0.2); the move is exactly 30%
of the gap to the target — in particular never more — and pairs with no
relevant active rumors are unchanged. -/
theorem reputation_smoothing (sys : RumorSystem) (name : String) (rt : RumorType)
    (h : name ∈ sys.reputation_names) :
    (relevant_rumors sys name rt ≠ [] → rumor_weight_total sys name rt > 0 →
      (update_reputation_from_rumors sys).village_reputation name rt
          = sys.village_reputation name rt * (7/10)
            + (rumor_weighted_sum sys name rt / rumor_weight_total sys name rt) * (3/10) ∧
      |(update_reputation_from_rumors sys).village_reputation name rt
          - sys.village_reputation name rt|
        = (3/10) * |rumor_weighted_sum sys name rt / rumor_weight_total sys name rt
            - sys.village_reputation name rt| ∧
      |(update_reputation_from_rumors sys).village_reputation name rt
          - sys.village_reputation name rt|
        ≤ (3/10) * |rumor_weighted_sum sys name rt / rumor_weight_total sys name rt
            - sys.village_reputation name rt|) ∧
    (relevant_rumors sys name rt = [] →
      (update_reputation_from_rumors sys).village_reputation name rt
        = sys.village_reputation name rt) := by
  constructor
  · intro hne hw
    have hval : (update_reputation_from_rumors sys).village_reputation name rt
        = sys.village_reputation name rt * (7/10)
          + (rumor_weighted_sum sys name rt / rumor_weight_total sys name rt) * (3/10) := by
      simp only [update_reputation_from_rumors]
      rw [if_pos h, if_pos hne, if_pos hw]
    have habs : |(update_reputation_from_rumors sys).village_reputation name rt
        - sys.village_reputation name rt|
        = (3/10) * |rumor_weighted_sum sys name rt / rumor_weight_total sys name rt
            - sys.village_reputation name rt| := by
      rw [hval]
      rw [show sys.village_reputation name rt * (7/10)
          + (rumor_weighted_sum sys name rt / rumor_weight_total sys name rt) * (3/10)
          - sys.village_reputation name rt
        = (3/10) * (rumor_weighted_sum sys name rt / rumor_weight_total sys name rt
            - sys.village_reputation name rt) from by ring]
      rw [abs_mul, abs_of_pos (by norm_num : (0:ℚ) < 3/10)]
    exact ⟨hval, habs, le_of_eq habs⟩
  · intro he
    simp only [update_reputation_from_rumors]
    rw [if_pos h, if_neg (by rw [he]; exact fun hc => hc rfl)]

/-- A positive hunting rumor about "A" with intensity 1 and confidence 1. -/
def witness_rumor : Rumor :=
  { target_name := "A"
    rumor_type := RumorType.HUNTING_SKILL
    content := "狩りが上手い"
    positive := true
    intensity := 1
    source_name := "P"
    confidence := 1
    witnesses := ["L"]
    creation_time := 0 }

/-- A one-rumor system for the C8 witness: "A" is initialized at 0.5 and
targeted by one positive hunting rumor of intensity 1 and confidence 1. -/
def rumor_sys1 : RumorSystem :=
  { active_rumors := [witness_rumor]
    rumor_history := []
    reputation_names := ["A"]
    village_reputation := fun _ _ => 5/10
    villager_personalities := fun _ => "gentle" }

/-- Witness for C8 at the one-rumor system. -/
theorem reputation_smoothing_witness :
    (relevant_rumors rumor_sys1 "A" RumorType.HUNTING_SKILL ≠ [] →
      rumor_weight_total rumor_sys1 "A" RumorType.HUNTING_SKILL > 0 →
      (update_reputation_from_rumors rumor_sys1).village_reputation "A"
            RumorType.HUNTING_SKILL
          = rumor_sys1.village_reputation "A" RumorType.HUNTING_SKILL * (7/10)
            + (rumor_weighted_sum rumor_sys1 "A" RumorType.HUNTING_SKILL
                / rumor_weight_total rumor_sys1 "A" RumorType.HUNTING_SKILL) * (3/10) ∧
      |(update_reputation_from_rumors rumor_sys1).village_reputation "A"
            RumorType.HUNTING_SKILL
          - rumor_sys1.village_reputation "A" RumorType.HUNTING_SKILL|
        = (3/10) * |rumor_weighted_sum rumor_sys1 "A" RumorType.HUNTING_SKILL
              / rumor_weight_total rumor_sys1 "A" RumorType.HUNTING_SKILL
            - rumor_sys1.village_reputation "A" RumorType.HUNTING_SKILL| ∧
      |(update_reputation_from_rumors rumor_sys1).village_reputation "A"
            RumorType.HUNTING_SKILL
          - rumor_sys1.village_reputation "A" RumorType.HUNTING_SKILL|
        ≤ (3/10) * |rumor_weighted_sum rumor_sys1 "A" RumorType.HUNTING_SKILL
              / rumor_weight_total rumor_sys1 "A" RumorType.HUNTING_SKILL
            - rumor_sys1.village_reputation "A" RumorType.HUNTING_SKILL|) ∧
    (relevant_rumors rumor_sys1 "A" RumorType.HUNTING_SKILL = [] →
      (update_reputation_from_rumors rumor_sys1).village_reputation "A"
          RumorType.HUNTING_SKILL
        = rumor_sys1.village_reputation "A" RumorType.HUNTING_SKILL) :=
  reputation_smoothing rumor_sys1 "A" RumorType.HUNTING_SKILL (by simp [rumor_sys1])

/-- One activity's injury-risk profile: (base, fatigue multiplier) pairs
for light and severe injury, from `_calculate_injury_risk` in
`simulation/integrated_village_simulation.py`. -/
structure RiskProfile where
  light_base : ℚ
  light_fatigue : ℚ
  severe_base : ℚ
  severe_fatigue : ℚ

/-- The `risk_profiles` table (success / failure variants), with unknown
activity strings falling back to the hunting profile. -/
def risk_profile (activity : String) (success : Bool) : RiskProfile :=
  if activity = "carpentry" then
    if success then ⟨5/100, 8/100, 1/100, 2/100⟩ else ⟨12/100, 15/100, 4/100, 6/100⟩
  else if activity = "cooking" then
    if success then ⟨2/100, 3/100, 1/1000, 5/1000⟩ else ⟨5/100, 7/100, 1/100, 2/100⟩
  else if activity = "caregiving" then
    if success then ⟨1/100, 2/100, 5/10000, 1/1000⟩ else ⟨3/100, 4/100, 2/1000, 5/1000⟩
  else if activity = "construction" then
    if success then ⟨6/100, 10/100, 2/100, 3/100⟩ else ⟨15/100, 20/100, 6/100, 8/100⟩
  else -- "hunting" and the default for any unknown activity
    if success then ⟨3/100, 5/100, 5/1000, 1/100⟩ else ⟨8/100, 12/100, 2/100, 3/100⟩

/-- `_calculate_injury_risk`: the returned (light, severe) probabilities,
`min(0.25, base + fatigue*mult)` and `min(0.10, base + fatigue*mult)`. -/
def calculate_injury_risk (activity : String) (success : Bool) (fatigue : ℚ) : ℚ × ℚ :=
  let p := risk_profile activity success
  (min (25/100) (p.light_base + fatigue * p.light_fatigue),
   min (10/100) (p.severe_base + fatigue * p.severe_fatigue))

/-- C9.  For every activity string and success flag, both returned injury
probabilities are strictly higher at fatigue 0.8 than at fatigue 0.0, and
for every fatigue value the light probability is at most 0.25 and the
severe probability at most 0.10. -/
theorem injury_risk_scaling (activity : String) (success : Bool) :
    (calculate_injury_risk activity success 0).1
        < (calculate_injury_risk activity success (8/10)).1 ∧
    (calculate_injury_risk activity success 0).2
        < (calculate_injury_risk activity success (8/10)).2 ∧
    ∀ fatigue : ℚ, (calculate_injury_risk activity success fatigue).1 ≤ 25/100 ∧
      (calculate_injury_risk activity success fatigue).2 ≤ 10/100 := by
  refine ⟨?_, ?_, fun fatigue => ⟨min_le_left _ _, min_le_left _ _⟩⟩ <;>
    (unfold calculate_injury_risk risk_profile
     split_ifs <;> norm_num [min_def])

/-- `ConstructionType` from the carpentry system. -/
inductive ConstructionType where
  | REPAIR
  | HOUSING
  | FURNITURE
  | INFRASTRUCTURE
  | TOOL_MAKING
  | EMERGENCY_REPAIR
deriving DecidableEq, Repr

/-- `ConstructionProject` dataclass. -/
structure ConstructionProject where
  name : String
  construction_type : ConstructionType
  difficulty : ℚ
  base_quality : ℚ
  work_time : ℚ
  materials_required : ℚ
  village_benefit : ℚ
  innovation_potential : ℚ
  collaboration_needed : Bool
  total_work_days : ℕ
  daily_work_hours : ℚ
deriving DecidableEq

/-- `OngoingProject` dataclass. -/
structure OngoingProject where
  project : ConstructionProject
  lead_carpenter : String
  helpers : List String
  start_day : ℕ
  days_worked : ℕ
  total_progress : ℚ
  daily_progress : List ℚ
  quality_accumulation : ℚ
  materials_used : ℚ
deriving DecidableEq

/-- `OngoingProject.is_complete`: `days_worked >= total_work_days`. -/
def OngoingProject.is_complete (op : OngoingProject) : Bool :=
  decide (op.days_worked ≥ op.project.total_work_days)

/-- `OngoingProject.get_completion_percentage`. -/
def OngoingProject.get_completion_percentage (op : OngoingProject) : ℚ :=
  min 100 ((op.total_progress / (op.project.total_work_days : ℚ)) * 100)

/-- `CarpentryReputation` dataclass (fields touched by `_complete_project`). -/
structure CarpentryReputation where
  carpenter_name : String
  success_count : ℕ
  total_attempts : ℕ
  quality_score_sum : ℚ
  reputation_score : ℚ
  construction_requests : ℕ
  specialization_known : Bool
  signature_works : List String

/-- The carpentry-system state touched by `continue_project_work` /
`_complete_project`: both project lists, the reputation dictionary and the
village-building qualities. -/
structure CarpSys where
  ongoing_projects : List OngoingProject
  completed_projects : List OngoingProject
  carpenter_reputations : String → Option CarpentryReputation
  village_buildings : String → ℚ

/-- The explicit random draws consumed by one `continue_project_work`
call: the uniform success roll, the daily-progress draw (uniform [0.8,1.2]
on success, [0.3,0.6] on failure), the quality draw (uniform [0.9,1.1]),
and the `people_affected` draw (`randint(5,15)`) used when the project has
village-wide benefit. -/
structure WorkDraws where
  success_roll : ℚ
  progress_draw : ℚ
  quality_draw : ℚ
  people_draw : ℕ

/-- The result dictionary of `continue_project_work` (its
`carpentry_inertia` entry is returned separately, and `final_quality` is
only present on completion). -/
structure WorkResult where
  success : Bool
  daily_progress : ℚ
  total_progress : ℚ
  quality_so_far : ℚ
  project_name : String
  days_remaining : ℤ
  is_completed : Bool
  materials_used_today : ℚ
  final_quality : Option ℚ
deriving DecidableEq

/-- Replace the first occurrence of `a` (Python's in-place mutation of a
list element, observed through the list). -/
def replaceFirst {α : Type} [DecidableEq α] : List α → α → α → List α
  | [], _, _ => []
  | x :: xs, a, b => if x = a then b :: xs else x :: replaceFirst xs a b

/-- Remove the first occurrence of `a` (Python's `list.remove`). -/
def removeFirst {α : Type} [DecidableEq α] : List α → α → List α
  | [], _ => []
  | x :: xs, a => if x = a then xs else x :: removeFirst xs a

/-- The per-day work computation of `continue_project_work` on the project
object itself: efficiency bonuses, the success roll, progress / quality /
materials accumulation, and the result fields derived from the updated
project. -/
def workStep (op : OngoingProject) (d : WorkDraws) : WorkResult × OngoingProject :=
  let base_efficiency : ℚ := 1
    + (if op.helpers ≠ [] then min (5/10) ((op.helpers.length : ℚ) * (15/100)) else 0)
    + (if op.days_worked > 2 then min (3/10) ((op.days_worked : ℚ) * (5/100)) else 0)
  let success_rate := min (9/10) (5/10 + base_efficiency * (3/10))
  let success : Bool := decide (d.success_roll < success_rate)
  let daily_progress :=
    if success then base_efficiency * d.progress_draw else base_efficiency * d.progress_draw
  let quality_gain :=
    if success then op.project.base_quality * daily_progress * d.quality_draw
    else op.project.base_quality * daily_progress * (7/10)
  let op' : OngoingProject :=
    { op with days_worked := op.days_worked + 1
              total_progress := op.total_progress + daily_progress
              daily_progress := op.daily_progress ++ [daily_progress]
              quality_accumulation := op.quality_accumulation + quality_gain
              materials_used := op.materials_used
                + op.project.materials_required / (op.project.total_work_days : ℚ) }
  ({ success := success
     daily_progress := daily_progress
     total_progress := op'.get_completion_percentage
     quality_so_far := op'.quality_accumulation
     project_name := op.project.name
     days_remaining := (op.project.total_work_days : ℤ) - (op'.days_worked : ℤ)
     is_completed := op'.is_complete
     materials_used_today := op.project.materials_required / (op.project.total_work_days : ℚ)
     final_quality := if op'.is_complete then
         some (op'.quality_accumulation / (op.project.total_work_days : ℚ))
       else none },
   op')

/-- `_create_multi_day_meaning_context` projected onto the context keys the
meaning-pressure engine reads (its extra bookkeeping keys — such as
`multi_day_project` and `milestone_achieved` — are never consulted by
`calculate_meaning_pressure` and are dropped). -/
def multi_day_context (op' : OngoingProject) (success : Bool) (daily_progress : ℚ)
    (d : WorkDraws) : Ctx :=
  { success := success
    effectiveness := daily_progress
    difficulty := op'.project.difficulty
    innovation := decide (op'.project.innovation_potential > 3/10)
    collaboration := decide (op'.helpers ≠ [])
    emergency := decide (op'.project.construction_type = ConstructionType.EMERGENCY_REPAIR)
    village_wide_impact := decide (op'.project.village_benefit > 5/10)
    people_affected := if op'.project.village_benefit ≤ 5/10 then 1 else d.people_draw }

/-- The lead carpenter's completion bonuses inside `_complete_project`:
day-count and quality bonuses to the reputation score, one success, and
specialization recognition for projects of 7 or more days. -/
def bump_reputation (rep : CarpentryReputation) (twd : ℕ) (final_quality : ℚ) :
    CarpentryReputation :=
  { rep with
    reputation_score := rep.reputation_score + (twd : ℚ) * (5/10) + final_quality * 2
    success_count := rep.success_count + 1
    specialization_known := if twd ≥ 7 then true else rep.specialization_known }

/-- `_complete_project`: final quality, the lead carpenter's reputation
bonuses, infrastructure building-quality update, and the move from the
ongoing list to the completed list. -/
def complete_project (sys : CarpSys) (op' : OngoingProject) : CarpSys :=
  let final_quality := op'.quality_accumulation / (op'.project.total_work_days : ℚ)
  let sys :=
    match sys.carpenter_reputations op'.lead_carpenter with
    | some rep =>
        let rep' := bump_reputation rep op'.project.total_work_days final_quality
        { sys with carpenter_reputations := fun n =>
            if n = op'.lead_carpenter then some rep' else sys.carpenter_reputations n }
    | none => sys
  let sys :=
    if op'.project.construction_type = ConstructionType.INFRASTRUCTURE then
      let building_key := if op'.project.name.containsSubstr "作業場" then "集会所" else "倉庫"
      { sys with village_buildings := fun k =>
          if k = building_key then min 1 (sys.village_buildings k + final_quality * (3/10))
          else sys.village_buildings k }
    else sys
  { sys with completed_projects := sys.completed_projects ++ [op']
             ongoing_projects := removeFirst sys.ongoing_projects op' }

/-- `continue_project_work`: one day of work on an ongoing project — the
work computation, the meaning-pressure learning update (the source passes
`MeaningActivityType.SOCIAL_COORDINATION` here), the in-place list update,
and on completion the `_complete_project` move. -/
noncomputable def continue_project_work (mps : MPState) (sys : CarpSys)
    (op : OngoingProject) (d : WorkDraws) :
    WorkResult × ℝ × MPState × CarpSys :=
  let ws := workStep op d
  let ctx := multi_day_context ws.2 ws.1.success ws.1.daily_progress d
  let upd := update_alignment_inertia_with_meaning_pressure mps op.lead_carpenter
    SOCIAL_COORDINATION ctx
  let sys1 := { sys with ongoing_projects := replaceFirst sys.ongoing_projects op ws.2 }
  if ws.1.is_completed then (ws.1, upd.1, upd.2, complete_project sys1 ws.2)
  else (ws.1, upd.1, upd.2, sys1)

lemma replaceFirst_append {α : Type} [DecidableEq α] (l1 l2 : List α) (a b : α)
    (h : a ∉ l1) : replaceFirst (l1 ++ a :: l2) a b = l1 ++ b :: l2 := by
  induction l1 with
  | nil => simp [replaceFirst]
  | cons x xs ih =>
      simp only [List.cons_append, replaceFirst, List.append_eq]
      have hx : ¬ x = a := fun he => h (by rw [he]; exact List.mem_cons_self a xs)
      rw [if_neg hx, ih (fun ha => h (List.mem_cons_of_mem x ha))]

lemma removeFirst_append {α : Type} [DecidableEq α] (l1 l2 : List α) (a : α)
    (h : a ∉ l1) : removeFirst (l1 ++ a :: l2) a = l1 ++ l2 := by
  induction l1 with
  | nil => simp [removeFirst]
  | cons x xs ih =>
      simp only [List.cons_append, removeFirst, List.append_eq]
      have hx : ¬ x = a := fun he => h (by rw [he]; exact List.mem_cons_self a xs)
      rw [if_neg hx, ih (fun ha => h (List.mem_cons_of_mem x ha))]

lemma workStep_days (op : OngoingProject) (d : WorkDraws) :
    ((workStep op d).2).days_worked = op.days_worked + 1 := rfl

lemma workStep_project (op : OngoingProject) (d : WorkDraws) :
    ((workStep op d).2).project = op.project := rfl

lemma workStep_completed (op : OngoingProject) (d : WorkDraws) :
    (workStep op d).1.is_completed
      = decide (op.days_worked + 1 ≥ op.project.total_work_days) := rfl

lemma workStep_final_quality (op : OngoingProject) (d : WorkDraws)
    (h : (workStep op d).1.is_completed = true) :
    (workStep op d).1.final_quality
      = some ((workStep op d).2.quality_accumulation
          / (op.project.total_work_days : ℚ)) := by
  simp only [workStep, OngoingProject.is_complete] at h ⊢
  rw [if_pos h]

lemma complete_project_lists (sys : CarpSys) (op' : OngoingProject) :
    (complete_project sys op').ongoing_projects = removeFirst sys.ongoing_projects op' ∧
    (complete_project sys op').completed_projects
      = sys.completed_projects ++ [op'] := by
  unfold complete_project
  rcases hrep : sys.carpenter_reputations op'.lead_carpenter with _ | rep <;>
    simp only [hrep] <;> split_ifs <;> exact ⟨rfl, rfl⟩

lemma continue_result_eq (mps : MPState) (sys : CarpSys) (op : OngoingProject)
    (d : WorkDraws) : (continue_project_work mps sys op d).1 = (workStep op d).1 := by
  simp only [continue_project_work]
  split <;> rfl

/-- Iterate `workStep` on the project object: `iter_work op ds k` is the
project after `k` worked days with draw sequence `ds`. -/
def iter_work (op : OngoingProject) (ds : ℕ → WorkDraws) : ℕ → OngoingProject
  | 0 => op
  | k + 1 => (workStep (iter_work op ds k) (ds k)).2

lemma iter_work_days (op : OngoingProject) (ds : ℕ → WorkDraws) (k : ℕ) :
    (iter_work op ds k).days_worked = op.days_worked + k := by
  induction k with
  | zero => rfl
  | succ m ih =>
      show ((workStep (iter_work op ds m) (ds m)).2).days_worked = _
      rw [workStep_days, ih]
      omega

lemma iter_work_project (op : OngoingProject) (ds : ℕ → WorkDraws) (k : ℕ) :
    (iter_work op ds k).project = op.project := by
  induction k with
  | zero => rfl
  | succ m ih =>
      show ((workStep (iter_work op ds m) (ds m)).2).project = _
      rw [workStep_project, ih]

/-- C7.  `continue_project_work` completes a project exactly when the call
brings `days_worked` up to `total_work_days`: starting from
`days_worked = 0` with `total_work_days = n ≥ 1`, the first `n - 1` calls
report `is_completed = false`, the n-th reports `is_completed = true` with
`final_quality = quality_accumulation / total_work_days`, and on that call
the project is removed from the ongoing collection and appended to the
completed collection (earlier calls only update it in place). -/
theorem carpentry_multi_day_completion :
    (∀ (mps : MPState) (sys : CarpSys) (op : OngoingProject) (d : WorkDraws)
        (l1 l2 : List OngoingProject),
      sys.ongoing_projects = l1 ++ op :: l2 → op ∉ l1 → (workStep op d).2 ∉ l1 →
      ((continue_project_work mps sys op d).1.is_completed = true
          ↔ op.days_worked + 1 ≥ op.project.total_work_days) ∧
      ((continue_project_work mps sys op d).1.is_completed = true →
        (continue_project_work mps sys op d).1.final_quality
          = some ((workStep op d).2.quality_accumulation
              / (op.project.total_work_days : ℚ)) ∧
        ((continue_project_work mps sys op d).2.2.2).ongoing_projects = l1 ++ l2 ∧
        ((continue_project_work mps sys op d).2.2.2).completed_projects
          = sys.completed_projects ++ [(workStep op d).2]) ∧
      ((continue_project_work mps sys op d).1.is_completed = false →
        ((continue_project_work mps sys op d).2.2.2).ongoing_projects
          = l1 ++ (workStep op d).2 :: l2 ∧
        ((continue_project_work mps sys op d).2.2.2).completed_projects
          = sys.completed_projects)) ∧
    (∀ (op : OngoingProject) (ds : ℕ → WorkDraws) (n k : ℕ),
      op.days_worked = 0 → op.project.total_work_days = n → 1 ≤ n →
      (k + 1 < n → (workStep (iter_work op ds k) (ds k)).1.is_completed = false) ∧
      (workStep (iter_work op ds (n - 1)) (ds (n - 1))).1.is_completed = true ∧
      (workStep (iter_work op ds (n - 1)) (ds (n - 1))).1.final_quality
        = some ((workStep (iter_work op ds (n - 1)) (ds (n - 1))).2.quality_accumulation
            / (n : ℚ))) := by
  constructor
  · intro mps sys op d l1 l2 hsplit h1 h2
    refine ⟨?_, ?_, ?_⟩
    · rw [continue_result_eq, workStep_completed]
      simp
    · intro hc
      rw [continue_result_eq] at hc ⊢
      refine ⟨workStep_final_quality op d hc, ?_, ?_⟩
      · show ((if (workStep op d).1.is_completed = true then _ else _ :
            WorkResult × ℝ × MPState × CarpSys)).2.2.2.ongoing_projects = _
        rw [if_pos hc]
        rw [(complete_project_lists _ _).1]
        show removeFirst (replaceFirst sys.ongoing_projects op (workStep op d).2)
            (workStep op d).2 = _
        rw [hsplit, replaceFirst_append _ _ _ _ h1, removeFirst_append _ _ _ h2]
      · show ((if (workStep op d).1.is_completed = true then _ else _ :
            WorkResult × ℝ × MPState × CarpSys)).2.2.2.completed_projects = _
        rw [if_pos hc]
        exact (complete_project_lists _ _).2
    · intro hc
      rw [continue_result_eq] at hc
      constructor
      · show ((if (workStep op d).1.is_completed = true then _ else _ :
            WorkResult × ℝ × MPState × CarpSys)).2.2.2.ongoing_projects = _
        rw [if_neg (by rw [hc]; exact Bool.false_ne_true)]
        show replaceFirst sys.ongoing_projects op (workStep op d).2 = _
        rw [hsplit, replaceFirst_append _ _ _ _ h1]
      · show ((if (workStep op d).1.is_completed = true then _ else _ :
            WorkResult × ℝ × MPState × CarpSys)).2.2.2.completed_projects = _
        rw [if_neg (by rw [hc]; exact Bool.false_ne_true)]
  · intro op ds n k h0 htwd hn
    have hdone : (workStep (iter_work op ds (n - 1)) (ds (n - 1))).1.is_completed = true := by
      rw [workStep_completed, iter_work_days, iter_work_project, h0, htwd]
      simp only [decide_eq_true_eq]
      omega
    refine ⟨?_, hdone, ?_⟩
    · intro hk
      rw [workStep_completed, iter_work_days, iter_work_project, h0, htwd]
      simp only [decide_eq_false_iff_not]
      omega
    · rw [workStep_final_quality _ _ hdone, iter_work_project, htwd]

/-- The "革新的住居" catalog entry (5 work days). -/
def project_w : ConstructionProject :=
  { name := "革新的住居"
    construction_type := ConstructionType.HOUSING
    difficulty := 8/10
    base_quality := 9/10
    work_time := 15/10
    materials_required := 12/10
    village_benefit := 5/10
    innovation_potential := 7/10
    collaboration_needed := true
    total_work_days := 5
    daily_work_hours := 6 }

/-- A freshly started 5-day project. -/
def op_w : OngoingProject :=
  { project := project_w
    lead_carpenter := "C"
    helpers := []
    start_day := 0
    days_worked := 0
    total_progress := 0
    daily_progress := []
    quality_accumulation := 0
    materials_used := 0 }

/-- A carpentry system whose only ongoing project is `op_w`. -/
def carp_sys_w : CarpSys :=
  { ongoing_projects := [op_w]
    completed_projects := []
    carpenter_reputations := fun _ => none
    village_buildings := fun _ => 0 }

/-- Fixed draws for the C7 witness. -/
def draws_w : WorkDraws :=
  { success_roll := 1/2
    progress_draw := 1
    quality_draw := 1
    people_draw := 5 }

/-- Witness for C7 at the concrete 5-day project. -/
theorem carpentry_multi_day_completion_witness :
    (((continue_project_work MPState.init carp_sys_w op_w draws_w).1.is_completed = true
        ↔ op_w.days_worked + 1 ≥ op_w.project.total_work_days) ∧
      ((continue_project_work MPState.init carp_sys_w op_w draws_w).1.is_completed = true →
        (continue_project_work MPState.init carp_sys_w op_w draws_w).1.final_quality
          = some ((workStep op_w draws_w).2.quality_accumulation
              / (op_w.project.total_work_days : ℚ)) ∧
        ((continue_project_work MPState.init carp_sys_w op_w draws_w).2.2.2).ongoing_projects
          = [] ++ [] ∧
        ((continue_project_work MPState.init carp_sys_w op_w draws_w).2.2.2).completed_projects
          = carp_sys_w.completed_projects ++ [(workStep op_w draws_w).2]) ∧
      ((continue_project_work MPState.init carp_sys_w op_w draws_w).1.is_completed = false →
        ((continue_project_work MPState.init carp_sys_w op_w draws_w).2.2.2).ongoing_projects
          = [] ++ (workStep op_w draws_w).2 :: [] ∧
        ((continue_project_work MPState.init carp_sys_w op_w draws_w).2.2.2).completed_projects
          = carp_sys_w.completed_projects)) ∧
    ((0 + 1 < 5 →
        (workStep (iter_work op_w (fun _ => draws_w) 0) ((fun _ => draws_w) 0)).1.is_completed
          = false) ∧
      (workStep (iter_work op_w (fun _ => draws_w) (5 - 1))
          ((fun _ => draws_w) (5 - 1))).1.is_completed = true ∧
      (workStep (iter_work op_w (fun _ => draws_w) (5 - 1))
          ((fun _ => draws_w) (5 - 1))).1.final_quality
        = some ((workStep (iter_work op_w (fun _ => draws_w) (5 - 1))
            ((fun _ => draws_w) (5 - 1))).2.quality_accumulation / ((5 : ℕ) : ℚ))) :=
  ⟨carpentry_multi_day_completion.1 MPState.init carp_sys_w op_w draws_w [] []
      rfl (by simp) (by simp),
   carpentry_multi_day_completion.2 op_w (fun _ => draws_w) 5 0 rfl rfl (by norm_num)⟩

end Village
